import Mathlib

/-!
Verification of the pygccxml type-traits and convertibility engine
(`pygccxml/declarations/type_traits.py`) against its specification.

The development shallowly embeds the module's data model and algorithms:

* C++ type expressions (`CType`) follow the spec's closed set of variants
  (fundamental kinds, cv-wrappers, pointer/reference/array, the three
  callable-type shapes, declaration references, typedef aliases).
* Declarations live in an external, read-only store (`Env`): classes carry
  their direct constructors, casting operators and transitively computed
  base list; declaration references compare by identity, modelled as a
  `Nat` id into the store.
* Functions translated from the source keep their Python names
  (`remove_cv`, `is_convertible`, `is_copy_constructor`, ...).  Helpers
  that live in modules outside the engine (the alias resolver, the base
  type extractor, the declaration-store accessors) are modelled from the
  spec and marked as such in their doc comments.
* `is_convertible` in the source is unboundedly recursive (the casting
  operator and constructor rules re-enter the top-level query).  The
  embedding threads an explicit fuel; a result of `none` means the source
  would still be recursing after that many nested conversion queries.
-/

set_option linter.unusedVariables false

namespace TypeTraits

/-- The fundamental (built-in) C++ type kinds enumerated by the spec's
data model. -/
inductive FundKind
  | void
  | bool_
  | char_
  | schar
  | uchar
  | wchar
  | short_
  | ushort
  | int_
  | uint
  | long_
  | ulong
  | longlong
  | ulonglong
  | int128
  | uint128
  | float_
  | double_
  | longdouble
deriving DecidableEq, Repr, Fintype

/-- C++ type expressions: the closed, recursive, structurally comparable
value from the spec's data model.  `declared` is a non-owning reference
into the declaration store by id (`none` models a reference whose
declaration slot was nulled during normalization, as the source can
produce when a forward declaration has no reachable definition); the
three callable variants carry an identity tag so that distinct
function/member shapes exist.  `alias` is a typedef indirection. -/
inductive CType
  | fund (k : FundKind)
  | const (base : CType)
  | volatile (base : CType)
  | pointer (base : CType)
  | reference (base : CType)
  | array (base : CType) (size : Nat)
  | freeFun (tag : Nat)
  | memFun (tag : Nat)
  | memVar (tag : Nat)
  | declared (d : Option Nat)
  | aliasTy (name : String) (base : CType)
deriving DecidableEq, Repr

/-- A value that is either a type expression or a bare declaration
reference: `remove_declarated` in the source returns the referenced
declaration itself (not a type) when its input is a declaration
reference, so its codomain is this sum. -/
inductive TD
  | ty (t : CType)
  | decl (d : Option Nat)
deriving DecidableEq, Repr

/-- The dynamic class tag of a type expression, used to translate the
source's `isinstance` dispatch. -/
inductive TyTag
  | fundT
  | constT
  | volatileT
  | pointerT
  | referenceT
  | arrayT
  | freeFunT
  | memFunT
  | memVarT
  | declaredT
  | aliasT
deriving DecidableEq, Repr

/-- Tag of a type expression's outermost constructor. -/
def tagOf : CType → TyTag
  | .fund _ => .fundT
  | .const _ => .constT
  | .volatile _ => .volatileT
  | .pointer _ => .pointerT
  | .reference _ => .referenceT
  | .array _ _ => .arrayT
  | .freeFun _ => .freeFunT
  | .memFun _ => .memFunT
  | .memVar _ => .memVarT
  | .declared _ => .declaredT
  | .aliasTy _ _ => .aliasT

/-- Qualified-name spellings, modelled as character lists so that every
string operation of the source is a structural (kernel-computable)
function.  Python string semantics map directly: indexing slices become
`List.drop`/`List.dropLast`, prefix/suffix tests become
`List.isPrefixOf`/`List.isSuffixOf`. -/
abbrev Spelling := List Char

/-- A string literal as a spelling. -/
def spell (s : String) : Spelling := s.data

/-- Python's `str.startswith`. -/
def startsWithS (pre s : Spelling) : Bool := pre.isPrefixOf s

/-- Python's `str.endswith`. -/
def endsWithS (suf s : Spelling) : Bool := suf.isSuffixOf s

/-- Member access specifiers of the declaration store. -/
inductive Access
  | pub
  | prot
  | priv
deriving DecidableEq, Repr

/-- A constructor as recorded in the declaration store: its argument
types, access specifier and whether it is compiler-synthesized. -/
structure CtorInfo where
  args : List CType
  access : Access
  artificial : Bool
deriving DecidableEq, Repr

/-- One entry of a class's transitively computed base list (the spec's
`HierarchyEdge`): the related class's id and the access of the edge. -/
structure BaseDesc where
  relatedClass : Nat
  access : Access
deriving DecidableEq, Repr

/-- The slice of a full class definition the engine reads: direct
constructors, the return types of its direct casting operators, and its
recursive (transitively computed) base list. -/
structure ClassInfo where
  constructors : List CtorInfo
  castingOps : List CType
  recursiveBases : List BaseDesc
deriving DecidableEq, Repr

/-- The slice of a forward class declaration the engine reads.
`templateArgs` is modelled from the spec: the template-argument
spellings parsed from the declaration's name (`templates.args`).
`definition` is modelled from the spec: the result of the declaration
store's qualified-name lookup resolving the forward declaration to its
full definition, `none` when no definition is reachable. -/
structure ClassFwdInfo where
  templateArgs : List Spelling
  definition : Option Nat
deriving DecidableEq, Repr

/-- A declaration of the store, as consumed by the engine. -/
inductive DeclInfo
  | classDef (info : ClassInfo)
  | classFwd (info : ClassFwdInfo)
  | enumDef
deriving DecidableEq, Repr

/-- A result of the global-namespace qualified-name lookup: a type, a
class-shaped declaration, or some other (non-class) declaration.  The
distinction mirrors the source's `isinstance(found, class_types)`
check. -/
inductive FV
  | ty (t : CType)
  | classDecl (d : Nat)
  | otherDecl (d : Nat)
deriving DecidableEq, Repr

/-- Modelled from the spec: the global namespace's qualified-name lookup
surface (zero, one or many matches per name), plus the resolved
`::std::string` / `::std::wstring` typedef targets that
`find_value_type`'s string shortcut consults. -/
structure GlobalNS where
  lookup : List (Spelling × List FV)
  stdStringType : CType
  stdWStringType : CType
deriving DecidableEq, Repr

/-- The read-only declaration store: declarations indexed by id, plus the
global namespace lookup surface. -/
structure Env where
  decls : List DeclInfo
  globalNS : GlobalNS
deriving DecidableEq, Repr

/-- Look a declaration id up in the store. -/
def lookupDecl (env : Env) (o : Option Nat) : Option DeclInfo :=
  o.bind (fun d => env.decls[d]?)

/-- The base sub-expression of a compound type expression (identity on
non-compound expressions; guarded uses below only reach it on compound
inputs, where the source accesses `.base` directly). -/
def cbase : CType → CType
  | .const b => b
  | .volatile b => b
  | .pointer b => b
  | .reference b => b
  | .array b _ => b
  | .aliasTy _ b => b
  | t => t

/-- Modelled from the spec: `type_traits_utils.remove_alias` (the alias
resolver the engine invokes as its mandatory first normalization step).
Typedef indirections are transparent to all normalization, so the
resolver removes every `alias` wrapper along the compound spine,
yielding an alias-free expression. -/
def removeAlias : CType → CType
  | .const b => .const (removeAlias b)
  | .volatile b => .volatile (removeAlias b)
  | .pointer b => .pointer (removeAlias b)
  | .reference b => .reference (removeAlias b)
  | .array b n => .array (removeAlias b) n
  | .aliasTy _ b => removeAlias b
  | t => t

/-- Modelled from the spec: `type_traits_utils.base_type`, the innermost
non-compound expression reached by following compound bases, with alias
transparency. -/
def base_type : CType → CType
  | .const b => base_type b
  | .volatile b => base_type b
  | .pointer b => base_type b
  | .reference b => base_type b
  | .array b _ => base_type b
  | .aliasTy _ b => base_type b
  | t => t

/-- Modelled from the spec: `type_traits_utils.decompose_type`, the list
of nested compound layers (outermost first) ending with the non-compound
base, skipping typedef indirections. -/
def decompose_type : CType → List CType
  | .const b => .const b :: decompose_type b
  | .volatile b => .volatile b :: decompose_type b
  | .pointer b => .pointer b :: decompose_type b
  | .reference b => .reference b :: decompose_type b
  | .array b n => .array b n :: decompose_type b
  | .aliasTy _ b => decompose_type b
  | t => [t]

/-- Translation of `create_cv_types`: a base type and its const,
volatile, and volatile-const wrapped forms (note the absence of the
const-of-volatile order). -/
def create_cv_types (base : CType) : List CType :=
  [base, .const base, .volatile base, .volatile (.const base)]

/-- Symmetric difference of two tag lists viewed as sets. -/
def tagSymmDiff (xs ys : List TyTag) : List TyTag :=
  xs.filter (fun a => !(ys.contains a)) ++ ys.filter (fun a => !(xs.contains a))

/-- Translation of `does_match_definition`.  The two-element symmetric
difference case runs an `issubclass` test in the source; none of the
modelled type classes subclasses another, so that test is always
false. -/
def does_match_definition (given : CType) (main : TyTag) (secondary : List TyTag) : Bool :=
  let tags := (decompose_type given).map tagOf
  match tags with
  | [] => false
  | t0 :: rest =>
    if t0 == main then true
    else
      match rest with
      | [] => false
      | t1 :: rest2 =>
        if (t0 == main && secondary.contains t1) || (t1 == main && secondary.contains t0) then
          true
        else
          match rest2 with
          | [] => false
          | t2 :: _ =>
            let classes := [t0, t1, t2].dedup
            let desired := (main :: secondary).dedup
            (tagSymmDiff classes desired).isEmpty

/-- Translation of `is_pointer`. -/
def is_pointer (t : CType) : Bool :=
  does_match_definition t .pointerT [.constT, .volatileT] ||
    does_match_definition t .pointerT [.volatileT, .constT]

/-- Translation of `is_fundamental`. -/
def is_fundamental (t : CType) : Bool :=
  does_match_definition t .fundT [.constT, .volatileT] ||
    does_match_definition t .fundT [.volatileT, .constT]

/-- Translation of `is_reference`. -/
def is_reference (t : CType) : Bool :=
  match removeAlias t with
  | .reference _ => true
  | _ => false

/-- Core of `is_const` on alias-free input.  The source recursion
re-resolves aliases at every step; after the deep alias resolution of
`removeAlias` every sub-expression is already alias-free, so the two
agree. -/
def is_constAF : CType → Bool
  | .const _ => true
  | .volatile b => is_constAF b
  | .array b _ => is_constAF b
  | _ => false

/-- Translation of `is_const`: true when the outermost qualifier (looking
through arrays and through volatile) is const. -/
def is_const (t : CType) : Bool :=
  is_constAF (removeAlias t)

/-- Core of `is_volatile` on alias-free input. -/
def is_volatileAF : CType → Bool
  | .volatile _ => true
  | .const b => is_volatileAF b
  | .array b _ => is_volatileAF b
  | _ => false

/-- Translation of `is_volatile`. -/
def is_volatile (t : CType) : Bool :=
  is_volatileAF (removeAlias t)

/-- Is the expression one of the three callable-type variants
(`calldef_type_t` in the source)? -/
def isCallable : CType → Bool
  | .freeFun _ => true
  | .memFun _ => true
  | .memVar _ => true
  | _ => false

/-- Translation of `remove_pointer`.  Note the calldef exception: a
pointer whose pointee is a callable type is returned unchanged. -/
def remove_pointer (t : CType) : CType :=
  let nake := removeAlias t
  if !(is_pointer nake) then t
  else
    match nake with
    | .volatile (.pointer b) => .volatile b
    | .const (.pointer b) => .const b
    | .volatile (.const (.pointer b)) => .volatile (.const b)
    | nake' => if isCallable (cbase nake') then t else cbase nake'

/-- Translation of `remove_reference`. -/
def remove_reference (t : CType) : CType :=
  let nake := removeAlias t
  if !(is_reference nake) then t else cbase nake

/-- Translation of `remove_const`, including the two array nesting
conventions the source comments describe (`volatile_t(const_t(array_t))`
from GCCXML versus `array_t(volatile_t(const_t))` from CastXML). -/
def remove_const (t : CType) : CType :=
  let nake := removeAlias t
  if !(is_constAF nake) then t
  else
    match nake with
    | .array b n =>
      let isV := is_volatileAF (.array b n)
      let rt := if isV then cbase (cbase b) else cbase b
      .array (if isV then .volatile rt else rt) n
    | .volatile b => .volatile (cbase b)
    | nake' => cbase nake'

/-- Translation of `remove_volatile`.  Unlike `remove_const` it has no
branch for a const wrapper above the volatile one. -/
def remove_volatile (t : CType) : CType :=
  let nake := removeAlias t
  if !(is_volatileAF nake) then t
  else
    match nake with
    | .array b n =>
      let isC := is_constAF (.array b n)
      let bt := if isC then cbase (cbase b) else cbase b
      .array (if isC then .const bt else bt) n
    | nake' => cbase nake'

/-- Translation of `remove_cv`: strip const, then volatile, then const
again (removing one qualifier can re-expose the other beneath a
reconstructed array layer). -/
def remove_cv (t : CType) : CType :=
  let nake := removeAlias t
  if !(is_constAF nake) && !(is_volatileAF nake) then t
  else
    let r1 := if is_constAF nake then remove_const nake else nake
    let r2 := if is_volatile r1 then remove_volatile r1 else r1
    if is_const r2 then remove_const r2 else r2

/-- Translation of `remove_declarated` on the type-or-declaration sum:
resolve aliases, then unwrap one declaration-reference layer; a bare
declaration passes through unchanged (the source's alias resolver and
`isinstance` check both leave it as is). -/
def remove_declarated : TD → TD
  | .ty t =>
    match removeAlias t with
    | .declared o => .decl o
    | t' => .ty t'
  | .decl o => .decl o

/-- `remove_declarated` applied to a type expression. -/
def removeDeclaratedT (t : CType) : TD :=
  remove_declarated (.ty t)

/-- Translation of `is_same`: compare after removing the
declaration-reference indirection.  Per the spec's data-model invariant,
equality of type expressions is structural after alias transparency
(`remove_declarated` has already resolved aliases), and equality of
declaration references compares the referenced declaration's
identity. -/
def is_same (t1 t2 : CType) : Bool :=
  removeDeclaratedT t1 == removeDeclaratedT t2

/-- Translation of `is_array`: resolve aliases, references and
cv-qualifiers, then test for an array. -/
def is_array (t : CType) : Bool :=
  match remove_cv (remove_reference (removeAlias t)) with
  | .array _ _ => true
  | _ => false

/-- Translation of `array_size`; `none` models the failed assertion when
the resolved input is not an array. -/
def array_size (t : CType) : Option Nat :=
  match remove_cv (remove_reference (removeAlias t)) with
  | .array _ n => some n
  | _ => none

/-- Result of an operation that can raise in the source. -/
inductive Res
  | ok (t : CType)
  | err (msg : String)
deriving DecidableEq, Repr

/-- Translation of `array_item_type`: the `.base` of the alias- and
cv-resolved input when `is_array` holds, the `remove_pointer` result
when `is_pointer` holds, and a raised `RuntimeError` otherwise. -/
def array_item_type (t : CType) : Res :=
  if is_array t then .ok (cbase (remove_cv (removeAlias t)))
  else if is_pointer t then .ok (remove_pointer t)
  else .err "array_item_type functions takes as argument array or pointer types"

/-- Translation of `is_void`: membership of the alias-resolved input in
the cv-forms of `void`. -/
def is_void (t : CType) : Bool :=
  (create_cv_types (.fund .void)).contains (removeAlias t)

/-- Translation of the `integral_def` list built inside `is_integral`,
in the source's order. -/
def integral_def : List CType :=
  create_cv_types (.fund .char_) ++
  create_cv_types (.fund .uchar) ++
  create_cv_types (.fund .schar) ++
  create_cv_types (.fund .wchar) ++
  create_cv_types (.fund .short_) ++
  create_cv_types (.fund .ushort) ++
  create_cv_types (.fund .bool_) ++
  create_cv_types (.fund .int_) ++
  create_cv_types (.fund .uint) ++
  create_cv_types (.fund .long_) ++
  create_cv_types (.fund .ulong) ++
  create_cv_types (.fund .longlong) ++
  create_cv_types (.fund .ulonglong) ++
  create_cv_types (.fund .int128) ++
  create_cv_types (.fund .uint128)

/-- Translation of `is_integral`: membership of the alias-resolved input
in `integral_def`. -/
def is_integral (t : CType) : Bool :=
  integral_def.contains (removeAlias t)

/-- The `declaration_xxx_traits` normalization sequence: resolve
aliases, strip cv-qualifiers, unwrap the declaration reference. -/
def traitsResolve (t : CType) : TD :=
  removeDeclaratedT (remove_cv (removeAlias t))

/-- Translation of `class_traits.is_my_case`: the resolved input names a
full class definition. -/
def is_class (env : Env) (t : CType) : Bool :=
  match traitsResolve t with
  | .decl o =>
    match lookupDecl env o with
    | some (.classDef _) => true
    | _ => false
  | _ => false

/-- Translation of `class_declaration_traits.is_my_case`: the resolved
input names a forward class declaration. -/
def is_class_declaration (env : Env) (t : CType) : Bool :=
  match traitsResolve t with
  | .decl o =>
    match lookupDecl env o with
    | some (.classFwd _) => true
    | _ => false
  | _ => false

/-- Translation of `enum_traits.is_my_case`. -/
def is_enum (env : Env) (t : CType) : Bool :=
  match traitsResolve t with
  | .decl o =>
    match lookupDecl env o with
    | some .enumDef => true
    | _ => false
  | _ => false

/-- Translation of `is_copy_constructor(args, parent)`: one argument,
whose type is a compound (a typedef'd — declaration-reference — argument
type is not compound and disqualifies the match), passed by reference,
with a const referent whose alias-resolved base names the parent class
itself (compared by declaration identity). -/
def is_copy_constructor (args : List CType) (parent : Nat) : Bool :=
  match args with
  | [arg] =>
    let isCompound : Bool :=
      match arg with
      | .const _ => true
      | .volatile _ => true
      | .pointer _ => true
      | .reference _ => true
      | .array _ _ => true
      | _ => false
    if !isCompound then false
    else if !(is_reference arg) then false
    else if !(is_const (cbase arg)) then false
    else
      let unAliased := removeAlias (cbase arg)
      match cbase unAliased with
      | .declared o => o == some parent
      | _ => false
  | _ => false

/-- Modelled from the spec: `class_t.find_copy_constructor` scans the
class's direct constructor list for the first member matching the
copy-constructor test. -/
def find_copy_constructor (env : Env) (d : Nat) : Option CtorInfo :=
  match env.decls[d]? with
  | some (.classDef ci) => ci.constructors.find? (fun c => is_copy_constructor c.args d)
  | _ => none

/-- Translation of `has_copy_constructor`: the class's copy constructor,
when it exists and is public. -/
def has_copy_constructor (env : Env) (d : Nat) : Bool :=
  match find_copy_constructor env d with
  | some c => c.access == Access.pub
  | none => false

/-- The repeated tail of the reference-binding tests: when the target is
a declaration reference, the source asserts it names a full class
definition and then asks for a public copy constructor. -/
def targetClassCopyCtor (env : Env) (t : CType) : Bool :=
  match t with
  | .declared (some d) =>
    match env.decls[d]? with
    | some (.classDef _) => has_copy_constructor env d
    | _ => false
  | _ => false

/-- Translation of `__is_convertible_t.__normalize`: resolve aliases,
then, when the innermost base is a reference to a forward class
declaration, substitute the declaration store's resolution of that
forward declaration (which may be empty). -/
def normCore (env : Env) : CType → CType
  | .const b => .const (normCore env b)
  | .volatile b => .volatile (normCore env b)
  | .pointer b => .pointer (normCore env b)
  | .reference b => .reference (normCore env b)
  | .array b n => .array (normCore env b) n
  | .declared o =>
    match lookupDecl env o with
    | some (.classFwd info) => .declared info.definition
    | _ => .declared o
  | t => t

/-- Normalization applied to a conversion operand. -/
def normalize (env : Env) (t : CType) : CType :=
  normCore env (removeAlias t)

/-- Translation of `__is_convertible_t.__test_trivial`: identity,
qualification addition, the void-pointer rule, pointer/reference
qualification widening, and array decay. -/
def testTrivial (env : Env) (s t : CType) : Bool :=
  if is_same s t then true
  else if is_const t && is_same s (cbase t) then true
  else if is_reference t && is_same s (cbase t) then true
  else if is_reference t && is_const (cbase t) && is_same s (cbase (cbase t)) then true
  else if is_same t (.pointer (.fund .void)) then
    if is_integral s || is_enum env s then false else true
  else if is_pointer s && is_pointer t && is_const (cbase t) &&
      is_same (cbase s) (cbase (cbase t)) then true
  else if is_reference s && is_reference t && is_const (cbase t) &&
      is_same (cbase s) (cbase (cbase t)) then true
  else if !(is_const s) && is_array s && is_pointer t &&
      is_same (base_type s) (cbase t) then true
  else if is_array s && is_pointer t && is_const (cbase t) &&
      is_same (base_type s) (cbase (cbase t)) then true
  else false

/-- Translation of
`__test_pointer_to_func_or_mv__to__func_or_mv`. -/
def testPtrFunc (s t : CType) : Bool :=
  if is_pointer s && is_reference t && isCallable (cbase t) &&
      is_same (cbase s) (cbase t) then true
  else if is_pointer s && isCallable t && is_same (cbase s) t then true
  else if is_pointer t && is_reference s && isCallable (cbase s) &&
      is_same (cbase s) (cbase t) then true
  else if is_pointer t && isCallable s && is_same (cbase t) s then true
  else false

/-- Translation of `__test_const_x_ref__to__x`. -/
def testConstXRefToX (env : Env) (s t : CType) : Bool :=
  if !(is_reference s) || !(is_const (cbase s)) ||
      !(is_same (cbase (cbase s)) t) then false
  else if is_fundamental t then true
  else if is_enum env t then true
  else targetClassCopyCtor env t

/-- Translation of `__test_ref_x__to__x`. -/
def testRefXToX (env : Env) (s t : CType) : Bool :=
  if !(is_reference s) || !(is_same (cbase s) t) then false
  else if is_fundamental t then true
  else if is_enum env t then true
  else targetClassCopyCtor env t

/-- Translation of `__test_const_ref_x__to__y`; `rec` is the recursive
re-entry into the top-level conversion query, so the result is `none`
when that recursion runs out of fuel. -/
def testConstRefXToY (rec : CType → CType → Option Bool) (env : Env) (s t : CType) :
    Option Bool :=
  if !(is_reference s) || !(is_const (cbase s)) then some false
  else if is_fundamental (cbase (cbase s)) && is_fundamental t then some true
  else
    match rec (cbase (cbase s)) (.fund .int_) with
    | none => none
    | some r =>
      if r && is_enum env t then some true
      else if targetClassCopyCtor env t then some true
      else some false

/-- Translation of `__test_ref_x__to__y`. -/
def testRefXToY (rec : CType → CType → Option Bool) (env : Env) (s t : CType) :
    Option Bool :=
  if !(is_reference s) then some false
  else if is_fundamental (cbase s) && is_fundamental t then some true
  else
    match rec (cbase s) (.fund .int_) with
    | none => none
    | some r =>
      if r && is_enum env t then some true
      else if targetClassCopyCtor env t then some true
      else some false

/-- Translation of `__test_fundamental__to__fundamental`. -/
def testFund2Fund (s t : CType) : Bool :=
  if !(is_fundamental (base_type s)) || !(is_fundamental (base_type t)) then false
  else if is_void (base_type s) || is_void (base_type t) then false
  else if is_fundamental s && is_fundamental t then true
  else if !(is_pointer s) && is_fundamental t then true
  else if !(is_pointer s) && is_const t && is_fundamental (cbase t) then true
  else if is_fundamental s && is_reference t && is_const (cbase t) &&
      is_fundamental (cbase (cbase t)) then true
  else false

/-- Translation of `_is_both_declarated`. -/
def bothDeclarated : CType → CType → Bool
  | .declared _, .declared _ => true
  | _, _ => false

/-- The id of the full class definition a type expression's base names,
when it names one (the `isinstance` pair guarding
`__test_derived_to_based`). -/
def classOf (env : Env) (t : CType) : Option Nat :=
  match t with
  | .declared (some d) =>
    match env.decls[d]? with
    | some (.classDef _) => some d
    | _ => none
  | _ => none

/-- Translation of `is_base_and_derived` (single-class case): the base
appears in the derived class's recursive base list. -/
def is_base_and_derived (env : Env) (basedId derivedId : Nat) : Bool :=
  match env.decls[derivedId]? with
  | some (.classDef ci) => ci.recursiveBases.any (fun b => b.relatedClass == basedId)
  | _ => false

/-- Translation of `__test_derived_to_based`: both bases name full class
definitions, the base appears in the derived class's recursive base list
through some non-private entry, and the operand pair matches one of the
seven shape patterns. -/
def testDerivedToBased (env : Env) (s t : CType) : Bool :=
  match classOf env (base_type s), classOf env (base_type t) with
  | some dId, some bId =>
    if !(is_base_and_derived env bId dId) then false
    else if !((match env.decls[dId]? with
        | some (.classDef ci) => ci.recursiveBases
        | _ => []).any (fun b => b.relatedClass == bId && !(b.access == Access.priv))) then
      false
    else if bothDeclarated t s then true
    else if is_pointer s && is_pointer t && bothDeclarated (cbase t) (cbase s) then true
    else if is_pointer s && is_pointer t && is_const (cbase s) && is_const (cbase t) &&
        bothDeclarated (cbase (cbase t)) (cbase (cbase s)) then true
    else if is_pointer s && is_pointer t && is_const (cbase s) &&
        bothDeclarated (cbase (cbase t)) (cbase s) then true
    else if is_reference s && is_reference t && bothDeclarated (cbase t) (cbase s) then true
    else if is_reference s && is_reference t && is_const (cbase s) && is_const (cbase t) &&
        bothDeclarated (cbase (cbase t)) (cbase (cbase s)) then true
    else if is_reference s && is_reference t && is_const (cbase s) &&
        bothDeclarated (cbase (cbase t)) (cbase s) then true
    else false
  | _, _ => false

/-- Short-circuiting disjunction over a list through the fuel monad:
`none` aborts, `some true` succeeds, `some false` moves on (the empty
list yields `some false`, matching the source's fall-through). -/
def anyO (f : α → Option Bool) : List α → Option Bool
  | [] => some false
  | a :: rest =>
    match f a with
    | none => none
    | some true => some true
    | some false => anyO f rest

/-- Translation of the enum-to-fundamental and casting-operator rules: a
declared enum source converts to any non-void fundamental target; a
declared class source converts when some casting operator's return type
recursively converts to the target. -/
def srcRule (rec : CType → CType → Option Bool) (env : Env) (s t : CType) : Option Bool :=
  match s with
  | .declared o =>
    match lookupDecl env o with
    | some .enumDef =>
      if is_fundamental t && !(is_void t) then some true else some false
    | some (.classDef ci) => anyO (fun rt => rec rt t) ci.castingOps
    | _ => some false
  | _ => some false

/-- One constructor considered by the constructor rule: a constructor
with exactly one argument recursively converts the source to that
argument's type; any other arity is skipped. -/
def ctorStep (rec : CType → CType → Option Bool) (s : CType) (c : CtorInfo) : Option Bool :=
  match c.args with
  | [a] => rec s a
  | _ => some false

/-- Translation of the user-defined-conversion-via-constructor rule: the
target names a full class definition and some direct constructor with
exactly one argument accepts the source.  The source code filters only
on arity, not on the artificial flag. -/
def ctorRule (rec : CType → CType → Option Bool) (env : Env) (s t : CType) : Option Bool :=
  match t with
  | .declared o =>
    match lookupDecl env o with
    | some (.classDef ci) => anyO (ctorStep rec s) ci.constructors
    | _ => some false
  | _ => some false

/-- Translation of the body of `__is_convertible_t.is_convertible`, with
the recursive re-entry abstracted as `rec`. -/
def convBody (rec : CType → CType → Option Bool) (env : Env) (s t : CType) : Option Bool :=
  if testTrivial env s t then some true
  else if is_array s || is_array t then some false
  else if testConstXRefToX env s t then some true
  else
    match testConstRefXToY rec env s t with
    | none => none
    | some true => some true
    | some false =>
      if testRefXToX env s t then some true
      else
        match testRefXToY rec env s t with
        | none => none
        | some true => some true
        | some false =>
          if testFund2Fund s t then some true
          else if testPtrFunc s t then some true
          else if testDerivedToBased env s t then some true
          else
            match srcRule rec env s t with
            | none => none
            | some true => some true
            | some false => ctorRule rec env s t

/-- Translation of `is_convertible(source, target)`.  The source
function is unboundedly recursive; `fuel` bounds the nesting depth of
conversion queries, and `none` means the source would still be recursing
after that many nested queries. -/
def is_convertible (fuel : Nat) (env : Env) (source target : CType) : Option Bool :=
  match fuel with
  | 0 => none
  | f + 1 =>
    convBody (is_convertible f env) env (normalize env source) (normalize env target)

/-- Translation of `string_equivalences`: the accepted spellings of the
narrow string type. -/
def string_equivalences : List Spelling :=
  [spell "::std::basic_string<char,std::char_traits<char>,std::allocator<char> >",
   spell "::std::basic_string<char, std::char_traits<char>, std::allocator<char> >",
   spell "::std::basic_string<char>", spell "::std::string"]

/-- Translation of `wstring_equivalences`. -/
def wstring_equivalences : List Spelling :=
  [spell "::std::basic_string<wchar_t,std::char_traits<wchar_t>,std::allocator<wchar_t> >",
   spell "::std::basic_string<wchar_t, std::char_traits<wchar_t>, std::allocator<wchar_t> >",
   spell "::std::basic_string<wchar_t>", spell "::std::wstring"]

/-- Translation of the string branch of `is_std_string`: exact
membership in the configured spelling list, never substring matching. -/
def is_std_string_str (s : Spelling) : Bool :=
  string_equivalences.contains s

/-- Translation of the string branch of `is_std_wstring`. -/
def is_std_wstring_str (s : Spelling) : Bool :=
  wstring_equivalences.contains s

/-- Modelled from the spec: `cpptypes.FUNDAMENTAL_TYPES`, the fallback
table mapping fundamental-type spellings to their type expressions. -/
def FUNDAMENTAL_TYPES : List (Spelling × CType) :=
  [(spell "void", .fund .void), (spell "bool", .fund .bool_),
   (spell "char", .fund .char_), (spell "signed char", .fund .schar),
   (spell "unsigned char", .fund .uchar), (spell "wchar_t", .fund .wchar),
   (spell "short int", .fund .short_), (spell "short unsigned int", .fund .ushort),
   (spell "int", .fund .int_), (spell "unsigned int", .fund .uint),
   (spell "long int", .fund .long_), (spell "long unsigned int", .fund .ulong),
   (spell "long long int", .fund .longlong),
   (spell "long long unsigned int", .fund .ulonglong),
   (spell "float", .fund .float_), (spell "double", .fund .double_),
   (spell "long double", .fund .longdouble)]

/-- The class-declaration wrap step of `find_value_type`: a found
class-shaped declaration is wrapped into a declaration-reference type
expression before qualifier wrapping; other results pass through. -/
def fvWrapClass : FV → FV
  | .classDecl d => .ty (.declared (some d))
  | f => f

/-- Const wrapping of a `find_value_type` result.  On a raw non-class
declaration the source would build a const wrapper around the raw
declaration object; that degenerate value is left unchanged here and is
exercised by no claim. -/
def fvConst : FV → FV
  | .ty t => .ty (.const t)
  | f => f

/-- Pointer wrapping of a `find_value_type` result (same caveat as
`fvConst`). -/
def fvPtr : FV → FV
  | .ty t => .ty (.pointer t)
  | f => f

/-- One unfolding of `impl_details.find_value_type`, with the recursive
re-entry abstracted as `rec`: normalize the leading `::`, look the name
up, and on zero candidates try the fundamental-type table, the
string-type shortcuts and the `const `-prefix / `*`-suffix stripping
recursion; a single candidate is returned and several candidates yield
the explicit empty result. -/
def findValueTypeBody (rec : Spelling → Option FV) (g : GlobalNS) (s0 : Spelling) :
    Option FV :=
  let s := if startsWithS (spell "::") s0 then s0 else spell "::" ++ s0
  let found := (g.lookup.lookup s).getD []
  match found with
  | [] =>
    let ng := s.drop 2
    match FUNDAMENTAL_TYPES.lookup ng with
    | some ft => some (.ty ft)
    | none =>
      if is_std_string_str s then some (.ty g.stdStringType)
      else if is_std_wstring_str s then some (.ty g.stdWStringType)
      else
        let hasConst := startsWithS (spell "const ") ng
        let s1 := if hasConst then ng.drop 6 else ng
        let hasPtr := endsWithS (spell "*") s1
        let s2 := if hasPtr then s1.dropLast else s1
        let found2 := if hasConst || hasPtr then rec s2 else none
        match found2 with
        | none => none
        | some f =>
          let f1 := fvWrapClass f
          let f2 := if hasConst then fvConst f1 else f1
          some (if hasPtr then fvPtr f2 else f2)
  | [x] => some x
  | _ => none

/-- Translation of `impl_details.find_value_type`.  The fuel bounds the
`const `-prefix / `*`-suffix stripping recursion (each step shortens the
string, so the source terminates; one fuel unit per stripped layer
suffices). -/
def findValueType (g : GlobalNS) : Nat → Spelling → Option FV
  | 0, _ => none
  | fuel + 1, s0 => findValueTypeBody (findValueType g fuel) g s0

/-- Result of `internal_type_traits.get_by_name`, whose failures are
raised `RuntimeError`s in the source. -/
inductive GRes
  | ok (v : FV)
  | err (msg : String)
deriving DecidableEq, Repr

/-- Translation of `internal_type_traits.get_by_name`.  In the
full-class-definition branch the source calls
`class_traits.declaration_class(type_)`, which retrieves the *class
object* `class_t` and calls it, constructing a fresh empty class instead
of fetching the input's declaration; the `typedef` member query that
follows scans that empty member list and necessarily raises
declaration-not-found, so the branch is a raised error.  In the
forward-declaration branch a `find_value_type` miss is also raised, not
returned as an empty result. -/
def get_by_name (fuel : Nat) (env : Env) (t : CType) (name : Spelling) : GRes :=
  if is_class env t then
    .err "declaration not found"
  else if is_class_declaration env t then
    match (match traitsResolve t with
           | .decl o => lookupDecl env o
           | _ => none) with
    | some (.classFwd info) =>
      match info.templateArgs with
      | [] => .err "IndexError"
      | a :: _ =>
        match findValueType env.globalNS fuel a with
        | some ref => .ok ref
        | none => .err "Unable to find reference to internal type"
    | _ => .err "Unable to find reference to internal type"
  else .err "Unable to find reference to internal type"

/-! ## Spec-side definitions

The following definitions restate portions of the specification's own
vocabulary, for comparison with the translated source. -/

/-- Following the spec's words: the character, boolean and integer
fundamental kinds `is_integral` is claimed to cover. -/
def integralKind : FundKind → Bool
  | .char_ => true
  | .schar => true
  | .uchar => true
  | .wchar => true
  | .bool_ => true
  | .short_ => true
  | .ushort => true
  | .int_ => true
  | .uint => true
  | .long_ => true
  | .ulong => true
  | .longlong => true
  | .ulonglong => true
  | .int128 => true
  | .uint128 => true
  | _ => false

/-- Following the spec's words: the derived class reaches the base
through some transitive, non-private inheritance entry. -/
def nonPrivatePath (di : ClassInfo) (bId : Nat) : Prop :=
  ∃ e ∈ di.recursiveBases, e.relatedClass = bId ∧ e.access ≠ Access.priv

/-- A type expression carrying no outer const or volatile qualification
(in the sense of the engine's own qualifier tests). -/
def cvFree (t : CType) : Bool :=
  !(is_const t) && !(is_volatile t)

/-- The cv/array nesting conventions the source's `remove_const` /
`remove_volatile` comments describe: at most one const and one volatile
layer, in the volatile-over-const order, wrapped around (or inside) at
most one array layer above an otherwise unqualified core. -/
def CanonicalCv (t : CType) : Prop :=
  ∃ b, cvFree b = true ∧
    (t = b ∨ t = .const b ∨ t = .volatile b ∨ t = .volatile (.const b) ∨
      ∃ n, t = .array b n ∨ t = .const (.array b n) ∨ t = .volatile (.array b n) ∨
        t = .volatile (.const (.array b n)) ∨ t = .array (.const b) n ∨
        t = .array (.volatile b) n ∨ t = .array (.volatile (.const b)) n)

/-! ## Concrete declaration stores used by witnesses and counterexamples -/

/-- An empty global namespace. -/
def emptyNS : GlobalNS := ⟨[], .fund .void, .fund .void⟩

/-- An empty declaration store. -/
def emptyEnv : Env := ⟨[], emptyNS⟩

/-- Two classes, ids 0 and 1, each declaring a casting operator whose
return type names the other; id 2 is an enum. -/
def envCycle : Env :=
  ⟨[.classDef ⟨[], [.declared (some 1)], []⟩,
    .classDef ⟨[], [.declared (some 0)], []⟩,
    .enumDef], emptyNS⟩

/-- A member-less base class (id 0) and a member-less derived class
(id 1) whose only recursive-base entry reaches the base publicly. -/
def envPub : Env :=
  ⟨[.classDef ⟨[], [], []⟩, .classDef ⟨[], [], [⟨0, .pub⟩]⟩], emptyNS⟩

/-- As `envPub`, but the derived class reaches the base only through a
private entry. -/
def envPriv : Env :=
  ⟨[.classDef ⟨[], [], []⟩, .classDef ⟨[], [], [⟨0, .priv⟩]⟩], emptyNS⟩

/-- A single class (id 0) whose only constructor is compiler-synthesized
(artificial) and takes one `int` argument. -/
def envCtor : Env :=
  ⟨[.classDef ⟨[⟨[.fund .int_], .pub, true⟩], [], []⟩], emptyNS⟩

/-- A single class (id 0) whose only constructor takes two arguments. -/
def envCtor2 : Env :=
  ⟨[.classDef ⟨[⟨[.fund .int_, .fund .int_], .pub, false⟩], [], []⟩], emptyNS⟩

/-- A forward class declaration (id 0) whose first template argument
spelling resolves to nothing, over a global namespace whose only entry
is an ambiguous two-candidate name. -/
def envFwd : Env :=
  ⟨[.classFwd ⟨[spell "NoSuch"], none⟩],
   ⟨[(spell "::Amb", [.otherDecl 0, .otherDecl 1])], .fund .void, .fund .void⟩⟩

/-! ## Helper lemmas -/

/-- Alias resolution is idempotent. -/
theorem removeAlias_idem (t : CType) : removeAlias (removeAlias t) = removeAlias t := by
  induction t <;> simp [removeAlias, *]

/-- `anyO` over a list whose every element evaluates to `some false`. -/
theorem anyO_eq_false {α : Type} (f : α → Option Bool) (l : List α)
    (h : ∀ a ∈ l, f a = some false) : anyO f l = some false := by
  induction l with
  | nil => rfl
  | cons a rest ih =>
    have ha := h a (List.mem_cons_self a rest)
    simp [anyO, ha]
    exact ih (fun x hx => h x (List.mem_cons_of_mem a hx))

/-- When every element evaluates (no fuel exhaustion), `anyO` succeeds
exactly when some element evaluates to `some true`. -/
theorem anyO_true_iff {α : Type} (f : α → Option Bool) (l : List α)
    (h : ∀ a ∈ l, ∃ r, f a = some r) :
    anyO f l = some true ↔ ∃ a ∈ l, f a = some true := by
  induction l with
  | nil => simp [anyO]
  | cons a rest ih =>
    obtain ⟨r, hr⟩ := h a (List.mem_cons_self a rest)
    have ih' := ih (fun x hx => h x (List.mem_cons_of_mem a hx))
    cases r with
    | true => simp [anyO, hr]
    | false =>
      simp only [anyO, hr]
      rw [ih']
      constructor
      · rintro ⟨x, hx, hfx⟩
        exact ⟨x, List.mem_cons_of_mem a hx, hfx⟩
      · rintro ⟨x, hx, hfx⟩
        rcases List.mem_cons.mp hx with rfl | hx'
        · rw [hfx] at hr; cases hr
        · exact ⟨x, hx', hfx⟩

/-! ## Claim C2 -/

/-- C2: arrays are excluded from every conversion rule after the initial
trivial (identity/qualification/decay) block: whenever the trivial test
rejects a normalized pair and either normalized operand is an array,
`is_convertible` answers false. -/
theorem array_short_circuit (env : Env) (s t : CType) (fuel : Nat)
    (harr : (is_array (normalize env s) || is_array (normalize env t)) = true)
    (htriv : testTrivial env (normalize env s) (normalize env t) = false) :
    is_convertible (fuel + 1) env s t = some false := by
  simp [is_convertible, convBody, htriv, harr]

/-- Witness for C2 at a concrete array-to-bool query. -/
theorem array_short_circuit_witness :
    (is_array (normalize emptyEnv (.array (.fund .int_) 2)) ||
      is_array (normalize emptyEnv (.fund .bool_))) = true ∧
    testTrivial emptyEnv (normalize emptyEnv (.array (.fund .int_) 2))
      (normalize emptyEnv (.fund .bool_)) = false ∧
    is_convertible 1 emptyEnv (.array (.fund .int_) 2) (.fund .bool_) = some false :=
  ⟨by decide, by decide,
    array_short_circuit emptyEnv (.array (.fund .int_) 2) (.fund .bool_) 0
      (by decide) (by decide)⟩

/-! ## Claim C5 -/

/-- C5: a constructor is classified as a copy constructor exactly when
it has one parameter which is literally a reference (a typedef at the
outermost level disqualifies) whose alias-resolved referent is a const
wrapper around a declaration reference naming the constructor's own
class. -/
theorem is_copy_constructor_characterization (args : List CType) (parent : Nat) :
    is_copy_constructor args parent = true ↔
      ∃ r, args = [CType.reference r] ∧
        removeAlias r = .const (.declared (some parent)) := by
  cases args with
  | nil => simp [is_copy_constructor]
  | cons a rest =>
    cases rest with
    | cons b rest2 => simp [is_copy_constructor]
    | nil =>
      cases a with
      | reference r =>
        cases hu : removeAlias r with
        | const b' =>
          cases b' <;>
            simp [is_copy_constructor, is_reference, is_const, removeAlias, hu,
              is_constAF, cbase, beq_iff_eq]
        | volatile b' =>
          cases b' <;>
            simp [is_copy_constructor, is_reference, is_const, removeAlias, hu,
              is_constAF, cbase]
        | array b' n =>
          cases b' <;>
            simp [is_copy_constructor, is_reference, is_const, removeAlias, hu,
              is_constAF, cbase]
        | _ =>
          simp [is_copy_constructor, is_reference, is_const, removeAlias, hu,
            is_constAF, cbase]
      | _ =>
        simp [is_copy_constructor, is_reference, removeAlias]

/-! ## Claim C6 -/

/-- C6 counterexample: the const-of-volatile qualifier order is missing
from the cv-forms `is_integral` recognizes, so a doubly qualified `int`
in that order is rejected (while the volatile-of-const order is
accepted). -/
theorem is_integral_const_volatile_false :
    is_integral (.const (.volatile (.fund .int_))) = false ∧
    is_integral (.volatile (.const (.fund .int_))) = true := by
  exact ⟨by decide, by decide⟩

/-- C6 amended: `is_integral` accepts every character/boolean/integer
kind bare, under const, under volatile and under volatile-of-const (but
not under const-of-volatile), and accepts nothing else: every accepted
expression alias-resolves to one of those four forms of an integral
kind. -/
theorem is_integral_characterization :
    (∀ k, integralKind k = true →
      is_integral (.fund k) = true ∧ is_integral (.const (.fund k)) = true ∧
      is_integral (.volatile (.fund k)) = true ∧
      is_integral (.volatile (.const (.fund k))) = true) ∧
    (∀ t, is_integral t = true →
      ∃ k, integralKind k = true ∧
        (removeAlias t = .fund k ∨ removeAlias t = .const (.fund k) ∨
          removeAlias t = .volatile (.fund k) ∨
          removeAlias t = .volatile (.const (.fund k)))) := by
  constructor
  · intro k hk
    cases k <;> first
      | exact absurd hk (by decide)
      | exact ⟨by decide, by decide, by decide, by decide⟩
  · intro t h
    have hm : removeAlias t ∈ integral_def := by
      rw [is_integral] at h
      exact List.elem_iff.mp h
    simp only [integral_def, create_cv_types, List.mem_append, List.mem_cons,
      List.not_mem_nil, or_false, or_assoc] at hm
    rcases hm with h'|h'|h'|h'|h'|h'|h'|h'|h'|h'|h'|h'|h'|h'|h'|h'|h'|h'|h'|h'|h'|h'|h'|h'|h'|h'|h'|h'|h'|h'|h'|h'|h'|h'|h'|h'|h'|h'|h'|h'|h'|h'|h'|h'|h'|h'|h'|h'|h'|h'|h'|h'|h'|h'|h'|h'|h'|h'|h'|h' <;>
      (rw [h']; decide)

/-- Witness for C6 at concrete integral and non-integral queries. -/
theorem is_integral_characterization_witness :
    is_integral (.const (.fund .char_)) = true ∧
    (∃ k, integralKind k = true ∧
      (removeAlias (.volatile (.fund .bool_)) = .fund k ∨
        removeAlias (.volatile (.fund .bool_)) = .const (.fund k) ∨
        removeAlias (.volatile (.fund .bool_)) = .volatile (.fund k) ∨
        removeAlias (.volatile (.fund .bool_)) = .volatile (.const (.fund k)))) :=
  ⟨(is_integral_characterization.1 .char_ (by decide)).2.1,
   is_integral_characterization.2 (.volatile (.fund .bool_)) (by decide)⟩

/-! ## Claim C7 -/

/-- C7 counterexample: `remove_pointer` and `remove_reference` strip one
layer per call, so they are not idempotent on a pointer-to-pointer or a
reference-to-reference; and `remove_cv` is not idempotent on a
const-qualified array of arrays of volatile elements, where the first
pass's array reconstruction leaves a volatile qualifier that only a
second pass removes. -/
theorem remove_ops_not_idempotent :
    remove_pointer (remove_pointer (.pointer (.pointer (.fund .int_)))) ≠
      remove_pointer (.pointer (.pointer (.fund .int_))) ∧
    remove_reference (remove_reference (.reference (.reference (.fund .int_)))) ≠
      remove_reference (.reference (.reference (.fund .int_))) ∧
    remove_cv (remove_cv (.const (.array (.array (.volatile (.fund .int_)) 2) 2))) ≠
      remove_cv (.const (.array (.array (.volatile (.fund .int_)) 2) 2)) := by
  exact ⟨by decide, by decide, by decide⟩

/-- C7 amended: `remove_declarated` is idempotent on every input, and
`remove_cv` is idempotent on every expression following the cv/array
nesting conventions the source handles (at most one const and one
volatile layer, in the volatile-over-const order, around or inside at
most one array layer); `remove_pointer` and `remove_reference` are not
idempotent in general, each stripping exactly one layer per call. -/
theorem remove_idempotence_amended :
    (∀ x : TD, remove_declarated (remove_declarated x) = remove_declarated x) ∧
    (∀ t : CType, CanonicalCv t → remove_cv (remove_cv t) = remove_cv t) := by
  constructor
  · intro x
    cases x with
    | decl o => rfl
    | ty t =>
      have h2 := removeAlias_idem t
      cases hu : removeAlias t <;> rw [hu] at h2 <;>
        simp [remove_declarated, hu, h2]
  · rintro t ⟨b, hb, hshape⟩
    have hc : is_constAF (removeAlias b) = false := by
      have := hb
      simp only [cvFree, is_const, is_volatile, Bool.and_eq_true,
        Bool.not_eq_true'] at this
      exact this.1
    have hv : is_volatileAF (removeAlias b) = false := by
      have := hb
      simp only [cvFree, is_const, is_volatile, Bool.and_eq_true,
        Bool.not_eq_true'] at this
      exact this.2
    have hi := removeAlias_idem b
    rcases hshape with rfl | rfl | rfl | rfl | ⟨n, rfl | rfl | rfl | rfl | rfl | rfl | rfl⟩ <;>
      simp [remove_cv, remove_const, remove_volatile, is_const, is_volatile,
        is_constAF, is_volatileAF, removeAlias, hi, hc, hv, cbase]

/-- Witness for C7 at a volatile-of-const canonical input and a bare
declaration. -/
theorem remove_idempotence_amended_witness :
    remove_declarated (remove_declarated (.ty (.aliasTy "T" (.declared (some 3))))) =
      remove_declarated (.ty (.aliasTy "T" (.declared (some 3)))) ∧
    remove_cv (remove_cv (.volatile (.const (.array (.fund .int_) 4)))) =
      remove_cv (.volatile (.const (.array (.fund .int_) 4))) :=
  ⟨remove_idempotence_amended.1 (.ty (.aliasTy "T" (.declared (some 3)))),
   remove_idempotence_amended.2 (.volatile (.const (.array (.fund .int_) 4)))
     ⟨.fund .int_, by decide, Or.inr (Or.inr (Or.inr (Or.inr ⟨4, Or.inr (Or.inr (Or.inr
       (Or.inl rfl)))⟩)))⟩⟩

/-! ## Claim C8 -/

/-- `remove_const` keeps an array-headed input array-headed and keeps
its element count. -/
theorem remove_const_array_head (b : CType) (n : Nat) :
    ∃ b', remove_const (.array b n) = .array b' n := by
  simp only [remove_const, removeAlias]
  split
  · exact ⟨b, rfl⟩
  · exact ⟨_, rfl⟩

/-- `remove_volatile` keeps an array-headed input array-headed and keeps
its element count. -/
theorem remove_volatile_array_head (b : CType) (n : Nat) :
    ∃ b', remove_volatile (.array b n) = .array b' n := by
  simp only [remove_volatile, removeAlias]
  split
  · exact ⟨b, rfl⟩
  · exact ⟨_, rfl⟩

/-- `remove_cv` keeps an array-headed input array-headed and keeps its
element count. -/
theorem remove_cv_array_head (b : CType) (n : Nat) :
    ∃ b', remove_cv (.array b n) = .array b' n := by
  simp only [remove_cv, removeAlias]
  split
  · exact ⟨b, rfl⟩
  · obtain ⟨b1, h1⟩ : ∃ b1,
        (if is_constAF (CType.array (removeAlias b) n) = true then
          remove_const (.array (removeAlias b) n)
        else .array (removeAlias b) n) = .array b1 n := by
      split
      · exact remove_const_array_head _ _
      · exact ⟨_, rfl⟩
    rw [h1]
    obtain ⟨b2, h2⟩ : ∃ b2,
        (if is_volatile (CType.array b1 n) = true then remove_volatile (.array b1 n)
        else .array b1 n) = .array b2 n := by
      split
      · exact remove_volatile_array_head _ _
      · exact ⟨_, rfl⟩
    rw [h2]
    split
    · exact remove_const_array_head _ _
    · exact ⟨_, rfl⟩

/-- C8 counterexample: stripping a pointer whose pointee is a callable
type returns the pointer unchanged, so the pointer round-trip fails on a
free-function pointee; and `array_item_type` strips the element's
cv-qualification, so the array round-trip fails on a const element. -/
theorem roundtrip_failures :
    removeAlias (remove_pointer (.pointer (.freeFun 0))) ≠ removeAlias (.freeFun 0) ∧
    array_item_type (.array (.const (.fund .int_)) 3) = .ok (.fund .int_) ∧
    array_item_type (.array (.const (.fund .int_)) 3) ≠ .ok (.const (.fund .int_)) := by
  exact ⟨by decide, by decide, by decide⟩

/-- C8 amended: the wrap-then-unwrap round-trips hold (up to alias
transparency, the spec's equality) with two restrictions the source
forces: the pointer round-trip excludes callable pointees, and the
array-element round-trip requires a cv-free element; `array_size` always
round-trips the element count. -/
theorem wrap_roundtrips_amended :
    (∀ T : CType, is_const T = false → is_const (.const T) = true) ∧
    (∀ T : CType, is_const T = false →
      removeAlias (remove_const (.const T)) = removeAlias T) ∧
    (∀ T : CType, is_volatile T = false →
      removeAlias (remove_volatile (.volatile T)) = removeAlias T) ∧
    (∀ T : CType, isCallable (removeAlias T) = false →
      removeAlias (remove_pointer (.pointer T)) = removeAlias T) ∧
    (∀ T : CType, removeAlias (remove_reference (.reference T)) = removeAlias T) ∧
    (∀ (T : CType) (n : Nat), array_size (.array T n) = some n) ∧
    (∀ (T : CType) (n : Nat), cvFree T = true →
      array_item_type (.array T n) = .ok (removeAlias T)) := by
  refine ⟨?_, ?_, ?_, ?_, ?_, ?_, ?_⟩
  · intro T h
    simp [is_const, removeAlias, is_constAF]
  · intro T h
    simp [remove_const, removeAlias, is_constAF, cbase, removeAlias_idem]
  · intro T h
    simp [remove_volatile, removeAlias, is_volatileAF, cbase, removeAlias_idem]
  · intro T h
    have hp : is_pointer (.pointer (removeAlias T)) = true := by
      simp [is_pointer, does_match_definition, decompose_type, tagOf]
    simp [remove_pointer, removeAlias, hp, h, cbase, removeAlias_idem]
  · intro T
    simp [remove_reference, removeAlias, is_reference, removeAlias_idem, cbase]
  · intro T n
    have hnr : remove_reference (.array (removeAlias T) n) = .array (removeAlias T) n := by
      simp [remove_reference, removeAlias, is_reference, removeAlias_idem]
    obtain ⟨b', hb'⟩ := remove_cv_array_head (removeAlias T) n
    simp [array_size, removeAlias, hnr, hb', removeAlias_idem]
  · intro T n h
    have hc : is_constAF (removeAlias T) = false := by
      have := h
      simp only [cvFree, is_const, is_volatile, Bool.and_eq_true,
        Bool.not_eq_true'] at this
      exact this.1
    have hv : is_volatileAF (removeAlias T) = false := by
      have := h
      simp only [cvFree, is_const, is_volatile, Bool.and_eq_true,
        Bool.not_eq_true'] at this
      exact this.2
    simp [array_item_type, is_array, remove_reference, remove_cv, removeAlias,
      is_reference, removeAlias_idem, is_constAF, is_volatileAF, hc, hv, cbase]

/-- Witness for C8 at concrete `int`-based round-trips. -/
theorem wrap_roundtrips_amended_witness :
    is_const (.const (.fund .int_)) = true ∧
    removeAlias (remove_const (.const (.fund .int_))) = removeAlias (.fund .int_) ∧
    removeAlias (remove_volatile (.volatile (.fund .int_))) = removeAlias (.fund .int_) ∧
    removeAlias (remove_pointer (.pointer (.fund .int_))) = removeAlias (.fund .int_) ∧
    removeAlias (remove_reference (.reference (.fund .int_))) = removeAlias (.fund .int_) ∧
    array_size (.array (.fund .int_) 3) = some 3 ∧
    array_item_type (.array (.fund .int_) 3) = .ok (removeAlias (.fund .int_)) :=
  ⟨wrap_roundtrips_amended.1 (.fund .int_) (by decide),
   wrap_roundtrips_amended.2.1 (.fund .int_) (by decide),
   wrap_roundtrips_amended.2.2.1 (.fund .int_) (by decide),
   wrap_roundtrips_amended.2.2.2.1 (.fund .int_) (by decide),
   wrap_roundtrips_amended.2.2.2.2.1 (.fund .int_),
   wrap_roundtrips_amended.2.2.2.2.2.1 (.fund .int_) 3,
   wrap_roundtrips_amended.2.2.2.2.2.2 (.fund .int_) 3 (by decide)⟩

/-! ## Claim C9 -/

/-- C9 counterexample: on a reference to an array — whose alias- and
cv-resolved form is still a reference, not an array — `array_size`
succeeds instead of failing (the source also resolves references), and
`array_item_type` succeeds but returns the array itself rather than its
element type. -/
theorem array_size_reference_defined :
    remove_cv (removeAlias (.reference (.array (.fund .int_) 3))) =
      .reference (.array (.fund .int_) 3) ∧
    array_size (.reference (.array (.fund .int_) 3)) = some 3 ∧
    array_item_type (.reference (.array (.fund .int_) 3)) =
      .ok (.array (.fund .int_) 3) := by
  exact ⟨by decide, by decide, by decide⟩

/-- C9 amended: `array_size` is defined exactly when the alias-,
reference- and cv-resolved input is an array (returning its element
count) and fails otherwise; `array_item_type` returns the element type
when the alias- and cv-resolved input is an array, the pointee when the
input is a pointer, and raises on any other shape. -/
theorem array_ops_contract_amended :
    (∀ (t b : CType) (n : Nat),
      remove_cv (remove_reference (removeAlias t)) = .array b n →
      array_size t = some n) ∧
    (∀ t : CType, is_array t = false → array_size t = none) ∧
    (∀ (t b : CType) (n : Nat),
      remove_cv (removeAlias t) = .array b n → array_item_type t = .ok b) ∧
    (∀ b : CType, isCallable (removeAlias b) = false →
      array_item_type (.pointer b) = .ok (removeAlias b)) ∧
    (∀ t : CType, is_array t = false → is_pointer t = false →
      array_item_type t =
        .err "array_item_type functions takes as argument array or pointer types") := by
  refine ⟨?_, ?_, ?_, ?_, ?_⟩
  · intro t b n hu
    simp [array_size, hu]
  · intro t h
    simp only [array_size]
    split
    · rename_i b n hu
      rw [is_array, hu] at h
      cases h
    · rfl
  · intro t b n hu
    have hidem := removeAlias_idem t
    have hnr : remove_reference (removeAlias t) = removeAlias t := by
      cases hh : removeAlias t with
      | reference x =>
        exfalso
        rw [hh] at hu hidem
        simp [remove_cv, removeAlias, hidem, is_constAF, is_volatileAF] at hu
      | _ =>
        rw [hh] at hidem
        simp [remove_reference, is_reference, hidem]
    have hia : is_array t = true := by
      rw [is_array, hnr, hu]
    rw [array_item_type, hia]
    simp [hu, cbase]
  · intro b h
    have hp : is_pointer (.pointer b) = true := by
      simp [is_pointer, does_match_definition, decompose_type, tagOf]
    have hna : is_array (.pointer b) = false := by
      simp [is_array, removeAlias, remove_reference, is_reference, removeAlias_idem,
        remove_cv, is_constAF, is_volatileAF]
    simp [array_item_type, hna, hp, remove_pointer, removeAlias, cbase, h,
      removeAlias_idem,
      show is_pointer (.pointer (removeAlias b)) = true by
        simp [is_pointer, does_match_definition, decompose_type, tagOf]]
  · intro t h1 h2
    simp [array_item_type, h1, h2]

/-- Witness for C9 at concrete array, pointer and fundamental inputs. -/
theorem array_ops_contract_amended_witness :
    array_size (.array (.fund .int_) 5) = some 5 ∧
    array_size (.fund .int_) = none ∧
    array_item_type (.array (.fund .int_) 5) = .ok (.fund .int_) ∧
    array_item_type (.pointer (.fund .int_)) = .ok (removeAlias (.fund .int_)) ∧
    array_item_type (.fund .int_) =
      .err "array_item_type functions takes as argument array or pointer types" :=
  ⟨array_ops_contract_amended.1 (.array (.fund .int_) 5) (.fund .int_) 5 (by decide),
   array_ops_contract_amended.2.1 (.fund .int_) (by decide),
   array_ops_contract_amended.2.2.1 (.array (.fund .int_) 5) (.fund .int_) 5 (by decide),
   array_ops_contract_amended.2.2.2.1 (.fund .int_) (by decide),
   array_ops_contract_amended.2.2.2.2 (.fund .int_) (by decide) (by decide)⟩

/-! ## Claim C10 -/

/-- C10 counterexample: on a forward class declaration whose template
argument resolves to nothing, `find_value_type` reports the explicit
not-found result, but `get_by_name` converts that absence into a raised
error instead of returning it. -/
theorem get_by_name_fwd_raises :
    findValueType envFwd.globalNS 3 (spell "NoSuch") = none ∧
    get_by_name 3 envFwd (.declared (some 0)) (spell "value_type") =
      .err "Unable to find reference to internal type" := by
  exact ⟨by decide, by decide⟩

/-- C10 amended: `find_value_type` reports zero candidates (with no
fallback applying) and ambiguously many candidates identically, as the
explicit empty result; `get_by_name` on a forward class declaration,
however, raises on that empty result rather than returning it. -/
theorem lookup_not_found_amended :
    (∀ (g : GlobalNS) (fuel : Nat) (s0 : Spelling) (x y : FV) (rest : List FV),
      (g.lookup.lookup (if startsWithS (spell "::") s0 then s0
        else spell "::" ++ s0)).getD [] = x :: y :: rest →
      findValueType g (fuel + 1) s0 = none) ∧
    (∀ (g : GlobalNS) (fuel : Nat) (s0 : Spelling),
      (g.lookup.lookup (if startsWithS (spell "::") s0 then s0
        else spell "::" ++ s0)).getD [] = [] →
      FUNDAMENTAL_TYPES.lookup
        ((if startsWithS (spell "::") s0 then s0 else spell "::" ++ s0).drop 2) =
          none →
      is_std_string_str (if startsWithS (spell "::") s0 then s0
        else spell "::" ++ s0) = false →
      is_std_wstring_str (if startsWithS (spell "::") s0 then s0
        else spell "::" ++ s0) = false →
      startsWithS (spell "const ")
        ((if startsWithS (spell "::") s0 then s0 else spell "::" ++ s0).drop 2) =
          false →
      endsWithS (spell "*")
        ((if startsWithS (spell "::") s0 then s0 else spell "::" ++ s0).drop 2) =
          false →
      findValueType g (fuel + 1) s0 = none) ∧
    (∀ (fuel : Nat) (env : Env) (t : CType) (o : Option Nat) (info : ClassFwdInfo)
        (a : Spelling) (args : List Spelling) (name : Spelling),
      is_class env t = false →
      traitsResolve t = .decl o →
      lookupDecl env o = some (.classFwd info) →
      info.templateArgs = a :: args →
      findValueType env.globalNS fuel a = none →
      get_by_name fuel env t name =
        .err "Unable to find reference to internal type") := by
  refine ⟨?_, ?_, ?_⟩
  · intro g fuel s0 x y rest h
    simp only [findValueType, findValueTypeBody]
    rw [h]
  · intro g fuel s0 h hf hs hw hc hp
    simp only [findValueType, findValueTypeBody]
    rw [h, hf]
    simp [hs, hw, hc, hp]
  · intro fuel env t o info a args name h1 h2 h3 h4 h5
    have hcd : is_class_declaration env t = true := by
      simp [is_class_declaration, h2, h3]
    rw [get_by_name, h1]
    simp only [Bool.false_eq_true, if_false, hcd, if_true, h2, h3, h4, h5]

/-- Witness for C10 at an ambiguous name, an unresolvable name and a
forward declaration. -/
theorem lookup_not_found_amended_witness :
    findValueType envFwd.globalNS 1 (spell "Amb") = none ∧
    findValueType envFwd.globalNS 1 (spell "NoSuch") = none ∧
    get_by_name 2 envFwd (.declared (some 0)) (spell "value_type") =
      .err "Unable to find reference to internal type" :=
  ⟨lookup_not_found_amended.1 envFwd.globalNS 0 (spell "Amb") (.otherDecl 0)
     (.otherDecl 1) [] (by decide),
   lookup_not_found_amended.2.1 envFwd.globalNS 0 (spell "NoSuch") (by decide)
     (by decide) (by decide) (by decide) (by decide) (by decide),
   lookup_not_found_amended.2.2 2 envFwd (.declared (some 0)) (some 0)
     ⟨[spell "NoSuch"], none⟩ (spell "NoSuch") [] (spell "value_type") (by decide)
     (by decide) (by decide) (by decide) (by decide)⟩

/-! ## Claim C4 -/

/-- C4 counterexample: a class whose only constructor is artificial
(compiler-synthesized) and takes one `int` argument still makes
`int` convertible to the class — the source filters constructors only by
arity, never by the artificial flag. -/
theorem ctor_rule_artificial_fires :
    (∀ c ∈ (⟨[⟨[.fund .int_], .pub, true⟩], [], []⟩ : ClassInfo).constructors,
      c.artificial = true) ∧
    envCtor.decls = [.classDef ⟨[⟨[.fund .int_], .pub, true⟩], [], []⟩] ∧
    is_convertible 2 envCtor (.fund .int_) (.declared (some 0)) = some true := by
  exact ⟨by decide, by decide, by decide⟩

/-- C4 amended: the constructor rule considers exactly the
single-argument constructors declared on the target class — regardless
of their artificial flag — recursively converting the source to the
single argument's type; a constructor of any other arity is skipped, and
when every considered conversion evaluates, the rule fires exactly when
some single-argument constructor's parameter type accepts the source. -/
theorem ctor_rule_characterization :
    (∀ (rec : CType → CType → Option Bool) (s : CType) (c : CtorInfo) (a : CType),
      c.args = [a] → ctorStep rec s c = rec s a) ∧
    (∀ (rec : CType → CType → Option Bool) (s : CType) (c : CtorInfo),
      c.args.length ≠ 1 → ctorStep rec s c = some false) ∧
    (∀ (rec : CType → CType → Option Bool) (env : Env) (s : CType) (tId : Nat)
        (ci : ClassInfo),
      env.decls[tId]? = some (.classDef ci) →
      (∀ c ∈ ci.constructors, c.args.length ≠ 1) →
      ctorRule rec env s (.declared (some tId)) = some false) ∧
    (∀ (fuel : Nat) (env : Env) (s : CType) (tId : Nat) (ci : ClassInfo),
      env.decls[tId]? = some (.classDef ci) →
      (∀ c ∈ ci.constructors, ∃ r, ctorStep (is_convertible fuel env) s c = some r) →
      (ctorRule (is_convertible fuel env) env s (.declared (some tId)) = some true ↔
        ∃ c ∈ ci.constructors, ctorStep (is_convertible fuel env) s c = some true)) := by
  refine ⟨?_, ?_, ?_, ?_⟩
  · intro rec s c a h
    simp [ctorStep, h]
  · intro rec s c h
    rcases hc : c.args with _ | ⟨a, _ | ⟨b, rest⟩⟩
    · simp [ctorStep, hc]
    · exact absurd (by simp [hc]) h
    · simp [ctorStep, hc]
  · intro rec env s tId ci h hall
    have : ∀ c ∈ ci.constructors, ctorStep rec s c = some false := by
      intro c hcmem
      rcases hc : c.args with _ | ⟨a, _ | ⟨b, rest⟩⟩
      · simp [ctorStep, hc]
      · exact absurd (by simp [hc]) (hall c hcmem)
      · simp [ctorStep, hc]
    simp [ctorRule, lookupDecl, h, anyO_eq_false _ _ this]
  · intro fuel env s tId ci h hall
    simp only [ctorRule, lookupDecl, Option.some_bind, h]
    exact anyO_true_iff _ _ hall

/-- Witness for C4: a two-argument constructor never fires, and the
single-argument rule fires at the concrete artificial-constructor
store. -/
theorem ctor_rule_characterization_witness :
    ctorRule (fun _ _ => none) envCtor2 (.fund .int_) (.declared (some 0)) =
      some false ∧
    (ctorRule (is_convertible 1 envCtor) envCtor (.fund .int_)
        (.declared (some 0)) = some true ↔
      ∃ c ∈ (⟨[⟨[.fund .int_], .pub, true⟩], [], []⟩ : ClassInfo).constructors,
        ctorStep (is_convertible 1 envCtor) (.fund .int_) c = some true) :=
  ⟨ctor_rule_characterization.2.2.1 (fun _ _ => none) envCtor2 (.fund .int_) 0
     ⟨[⟨[.fund .int_, .fund .int_], .pub, false⟩], [], []⟩ (by decide)
     (by decide),
   ctor_rule_characterization.2.2.2 1 envCtor (.fund .int_) 0
     ⟨[⟨[.fund .int_], .pub, true⟩], [], []⟩ (by decide)
     (fun c hc => ⟨true, by
       have : c = ⟨[.fund .int_], .pub, true⟩ := by
         simpa using hc
       rw [this]
       decide⟩)⟩

/-! ## Claim C1 -/

/-- One unfolding of the conversion body at the cyclic store: every rule
before the casting-operator rule rejects the class-to-enum query, so the
body's value is that of the recursive re-entry on the other class of the
cycle. -/
theorem convBody_cycle_step (rec : CType → CType → Option Bool) (a b : Nat)
    (hab : (a = 0 ∧ b = 1) ∨ (a = 1 ∧ b = 0))
    (h : rec (.declared (some b)) (.declared (some 2)) = none) :
    convBody rec envCycle (.declared (some a)) (.declared (some 2)) = none := by
  rcases hab with ⟨ha, hb⟩ | ⟨ha, hb⟩ <;> subst ha <;> subst hb
  · have h11 : srcRule rec envCycle (.declared (some 0)) (.declared (some 2)) = none := by
      show anyO (fun rt => rec rt (.declared (some 2))) [.declared (some 1)] = none
      simp [anyO, h]
    simp [convBody, h11,
      show testTrivial envCycle (.declared (some 0)) (.declared (some 2)) = false from by decide,
      show is_array (.declared (some 0)) = false from by decide,
      show is_array (.declared (some 2)) = false from by decide,
      show testConstXRefToX envCycle (.declared (some 0)) (.declared (some 2)) = false from by decide,
      show ∀ r, testConstRefXToY r envCycle (.declared (some 0)) (.declared (some 2)) = some false from fun r => rfl,
      show testRefXToX envCycle (.declared (some 0)) (.declared (some 2)) = false from by decide,
      show ∀ r, testRefXToY r envCycle (.declared (some 0)) (.declared (some 2)) = some false from fun r => rfl,
      show testFund2Fund (.declared (some 0)) (.declared (some 2)) = false from by decide,
      show testPtrFunc (.declared (some 0)) (.declared (some 2)) = false from by decide,
      show testDerivedToBased envCycle (.declared (some 0)) (.declared (some 2)) = false from by decide]
  · have h11 : srcRule rec envCycle (.declared (some 1)) (.declared (some 2)) = none := by
      show anyO (fun rt => rec rt (.declared (some 2))) [.declared (some 0)] = none
      simp [anyO, h]
    simp [convBody, h11,
      show testTrivial envCycle (.declared (some 1)) (.declared (some 2)) = false from by decide,
      show is_array (.declared (some 1)) = false from by decide,
      show is_array (.declared (some 2)) = false from by decide,
      show testConstXRefToX envCycle (.declared (some 1)) (.declared (some 2)) = false from by decide,
      show ∀ r, testConstRefXToY r envCycle (.declared (some 1)) (.declared (some 2)) = some false from fun r => rfl,
      show testRefXToX envCycle (.declared (some 1)) (.declared (some 2)) = false from by decide,
      show ∀ r, testRefXToY r envCycle (.declared (some 1)) (.declared (some 2)) = some false from fun r => rfl,
      show testFund2Fund (.declared (some 1)) (.declared (some 2)) = false from by decide,
      show testPtrFunc (.declared (some 1)) (.declared (some 2)) = false from by decide,
      show testDerivedToBased envCycle (.declared (some 1)) (.declared (some 2)) = false from by decide]

/-- Both directions of the casting-operator cycle exhaust any amount of
fuel simultaneously. -/
theorem conv_cycle_aux : ∀ fuel : Nat,
    is_convertible fuel envCycle (.declared (some 0)) (.declared (some 2)) = none ∧
    is_convertible fuel envCycle (.declared (some 1)) (.declared (some 2)) = none := by
  intro fuel
  induction fuel with
  | zero => exact ⟨rfl, rfl⟩
  | succ f ih =>
    have hn0 : normalize envCycle (.declared (some 0)) = .declared (some 0) := by decide
    have hn1 : normalize envCycle (.declared (some 1)) = .declared (some 1) := by decide
    have hn2 : normalize envCycle (.declared (some 2)) = .declared (some 2) := by decide
    constructor
    · show convBody (is_convertible f envCycle) envCycle
        (normalize envCycle (.declared (some 0))) (normalize envCycle (.declared (some 2))) = none
      rw [hn0, hn2]
      exact convBody_cycle_step _ 0 1 (Or.inl ⟨rfl, rfl⟩) ih.2
    · show convBody (is_convertible f envCycle) envCycle
        (normalize envCycle (.declared (some 1))) (normalize envCycle (.declared (some 2))) = none
      rw [hn1, hn2]
      exact convBody_cycle_step _ 1 0 (Or.inr ⟨rfl, rfl⟩) ih.1

/-- C1: the recursion of `is_convertible` through the casting-operator
rule is not bounded by any visited-pair guard: with two classes each
declaring a casting operator to the other, the class-to-enum query
re-enters itself forever, exhausting every fuel bound (the source
recurses without termination). -/
theorem is_convertible_cycle_diverges :
    ∀ fuel : Nat,
      is_convertible fuel envCycle (.declared (some 0)) (.declared (some 2)) = none :=
  fun fuel => (conv_cycle_aux fuel).1

/-! ## Claim C3 -/

/-- The non-private recursive-base scan of `__test_derived_to_based`
succeeds exactly when a non-private transitive inheritance entry
exists. -/
theorem nonPrivatePath_any_iff (di : ClassInfo) (bId : Nat) :
    (di.recursiveBases.any
      (fun e => e.relatedClass == bId && !(e.access == Access.priv))) = true ↔
      nonPrivatePath di bId := by
  simp [nonPrivatePath, List.any_eq_true, Bool.and_eq_true, beq_iff_eq,
    Bool.not_eq_true', beq_eq_false_iff_ne]

/-- A non-private inheritance entry in particular makes
`is_base_and_derived` succeed. -/
theorem any_of_nonPrivatePath (di : ClassInfo) (bId : Nat)
    (h : nonPrivatePath di bId) :
    di.recursiveBases.any (fun e => e.relatedClass == bId) = true := by
  obtain ⟨e, he, h1, h2⟩ := h
  simp [List.any_eq_true]
  exact ⟨e, he, h1⟩

/-- The two-guard prefix of `__test_derived_to_based` followed by a
matching shape is equivalent to its second (stronger) guard. -/
theorem path_guard_iff (p q : Bool) (himp : q = true → p = true) :
    (if !p then false else if !q then false else true) = true ↔ q = true := by
  constructor
  · intro h
    by_cases hp : p
    · by_cases hq : q
      · exact hq
      · simp [hp, hq] at h
    · simp [hp] at h
  · intro hq
    simp [himp hq, hq]

/-- The two-guard prefix followed by no matching shape is false. -/
theorem guard_chain_false (p q : Bool) :
    (if !p then false else if !q then false else false) = false := by
  by_cases hp : p <;> by_cases hq : q <;> simp [hp, hq]

/-- C3 amended: for classes Derived and Base, the derived-to-base rule
fires, in the value-slicing, pointer/pointer, const-pointer/const-pointer,
reference/reference and const-reference/const-reference shapes, exactly
when the recursive base list records a non-private entry for Base; the
pointer/const-pointer and reference/const-reference shapes never fire
(their guard tests the constness of the source operand while requiring
that same operand to be a bare declaration reference); base-to-derived
never fires when the base's own recursive base list does not mention the
derived class; and on member-less classes a private-only path makes
`is_convertible` false while a public path makes it true. -/
theorem derived_to_base_characterization :
    (∀ (env : Env) (dId bId : Nat) (di bi : ClassInfo),
      env.decls[dId]? = some (.classDef di) →
      env.decls[bId]? = some (.classDef bi) →
      ((testDerivedToBased env (.declared (some dId)) (.declared (some bId)) = true ↔
          nonPrivatePath di bId) ∧
        (testDerivedToBased env (.pointer (.declared (some dId)))
          (.pointer (.declared (some bId))) = true ↔ nonPrivatePath di bId) ∧
        (testDerivedToBased env (.pointer (.const (.declared (some dId))))
          (.pointer (.const (.declared (some bId)))) = true ↔ nonPrivatePath di bId) ∧
        (testDerivedToBased env (.reference (.declared (some dId)))
          (.reference (.declared (some bId))) = true ↔ nonPrivatePath di bId) ∧
        (testDerivedToBased env (.reference (.const (.declared (some dId))))
          (.reference (.const (.declared (some bId)))) = true ↔ nonPrivatePath di bId) ∧
        (testDerivedToBased env (.pointer (.declared (some dId)))
          (.pointer (.const (.declared (some bId)))) = false) ∧
        (testDerivedToBased env (.reference (.declared (some dId)))
          (.reference (.const (.declared (some bId)))) = false) ∧
        ((∀ e ∈ bi.recursiveBases, e.relatedClass ≠ dId) →
          testDerivedToBased env (.declared (some bId)) (.declared (some dId)) =
            false))) ∧
    is_convertible 1 envPriv (.declared (some 1)) (.declared (some 0)) = some false ∧
    is_convertible 1 envPub (.declared (some 1)) (.declared (some 0)) = some true := by
  have l1 : ∀ x : Nat, is_pointer (.pointer (.declared (some x))) = true :=
    fun x => by simp [is_pointer, does_match_definition, decompose_type, tagOf]
  have l2 : ∀ x : Nat, is_pointer (.pointer (.const (.declared (some x)))) = true :=
    fun x => by simp [is_pointer, does_match_definition, decompose_type, tagOf]
  have l3 : ∀ x : Nat, is_pointer (.reference (.declared (some x))) = false :=
    fun x => by simp [is_pointer, does_match_definition, decompose_type, tagOf,
      tagSymmDiff]
  have l4 : ∀ x : Nat, is_pointer (.reference (.const (.declared (some x)))) = false :=
    fun x => by simp [is_pointer, does_match_definition, decompose_type, tagOf,
      tagSymmDiff]
  refine ⟨?_, by decide, by decide⟩
  intro env dId bId di bi hd hb
  have himp : (di.recursiveBases.any
      (fun e => e.relatedClass == bId && !(e.access == Access.priv))) = true →
      di.recursiveBases.any (fun e => e.relatedClass == bId) = true :=
    fun hq => any_of_nonPrivatePath di bId ((nonPrivatePath_any_iff di bId).mp hq)
  refine ⟨?_, ?_, ?_, ?_, ?_, ?_, ?_, ?_⟩
  · simp only [testDerivedToBased, base_type, classOf, hd, hb, is_base_and_derived,
      bothDeclarated, if_true]
    rw [path_guard_iff _ _ himp]
    exact nonPrivatePath_any_iff di bId
  · simp only [testDerivedToBased, base_type, classOf, hd, hb, is_base_and_derived,
      bothDeclarated, if_true, l1, cbase, is_const, removeAlias, is_constAF,
      Bool.and_true, Bool.true_and, Bool.and_false, Bool.false_and,
      Bool.false_eq_true, if_false]
    rw [path_guard_iff _ _ himp]
    exact nonPrivatePath_any_iff di bId
  · simp only [testDerivedToBased, base_type, classOf, hd, hb, is_base_and_derived,
      bothDeclarated, if_true, l2, cbase, is_const, removeAlias, is_constAF,
      Bool.and_true, Bool.true_and, Bool.and_false, Bool.false_and,
      Bool.false_eq_true, if_false]
    rw [path_guard_iff _ _ himp]
    exact nonPrivatePath_any_iff di bId
  · simp only [testDerivedToBased, base_type, classOf, hd, hb, is_base_and_derived,
      bothDeclarated, if_true, is_reference, removeAlias, cbase, is_const,
      is_constAF, l1, l2, l3, l4, Bool.and_true, Bool.true_and, Bool.and_false,
      Bool.false_and, Bool.false_eq_true, if_false]
    rw [path_guard_iff _ _ himp]
    exact nonPrivatePath_any_iff di bId
  · simp only [testDerivedToBased, base_type, classOf, hd, hb, is_base_and_derived,
      bothDeclarated, if_true, is_reference, removeAlias, cbase, is_const,
      is_constAF, l1, l2, l3, l4, Bool.and_true, Bool.true_and, Bool.and_false,
      Bool.false_and, Bool.false_eq_true, if_false]
    rw [path_guard_iff _ _ himp]
    exact nonPrivatePath_any_iff di bId
  · simp only [testDerivedToBased, base_type, classOf, hd, hb, is_base_and_derived,
      bothDeclarated, if_true, is_reference, removeAlias, cbase, is_const,
      is_constAF, l1, l2, l3, l4, Bool.and_true, Bool.true_and, Bool.and_false,
      Bool.false_and, Bool.false_eq_true, if_false]
    exact guard_chain_false _ _
  · simp only [testDerivedToBased, base_type, classOf, hd, hb, is_base_and_derived,
      bothDeclarated, if_true, is_reference, removeAlias, cbase, is_const,
      is_constAF, l1, l2, l3, l4, Bool.and_true, Bool.true_and, Bool.and_false,
      Bool.false_and, Bool.false_eq_true, if_false]
    exact guard_chain_false _ _
  · intro hne
    have hp : bi.recursiveBases.any (fun e => e.relatedClass == dId) = false := by
      rw [List.any_eq_false]
      intro e he
      simp [beq_iff_eq]
      exact hne e he
    simp only [testDerivedToBased, base_type, classOf, hd, hb, is_base_and_derived,
      hp, Bool.not_false, if_true]


/-- C3 counterexample: even with a public inheritance path, the
pointer/const-pointer and reference/const-reference shapes the claim
lists as covered are rejected — the source guards those two shapes on
the constness of the *source* operand while simultaneously requiring
that operand to be a bare declaration reference, which is
unsatisfiable. -/
theorem derived_const_shapes_fail :
    is_convertible 2 envPub (.pointer (.declared (some 1)))
      (.pointer (.const (.declared (some 0)))) = some false ∧
    is_convertible 2 envPub (.reference (.declared (some 1)))
      (.reference (.const (.declared (some 0)))) = some false := by
  exact ⟨by decide, by decide⟩

/-- Witness for C3 at the concrete public and private stores. -/
theorem derived_to_base_characterization_witness :
    testDerivedToBased envPub (.declared (some 1)) (.declared (some 0)) = true ∧
    testDerivedToBased envPriv (.declared (some 1)) (.declared (some 0)) = false :=
  ⟨((derived_to_base_characterization.1 envPub 1 0 ⟨[], [], [⟨0, .pub⟩]⟩ ⟨[], [], []⟩
      (by decide) (by decide)).1).mpr ⟨⟨0, .pub⟩, by decide, rfl, by decide⟩,
   by
     have h := (derived_to_base_characterization.1 envPriv 1 0 ⟨[], [], [⟨0, .priv⟩]⟩
       ⟨[], [], []⟩ (by decide) (by decide)).1
     refine Bool.eq_false_iff.mpr (fun hx => ?_)
     obtain ⟨e, he, h1, h2⟩ := h.mp hx
     have : e = ⟨0, Access.priv⟩ := by simpa using he
     rw [this] at h2
     exact h2 rfl⟩


end TypeTraits
